import Mathlib

/-!
Shallow embedding of the r2-explorer repository: the server actions in
`src/R2_dev/src/app/actions.ts` and the client file-browser component in
`src/src/app/page.tsx`.

Modelling conventions:
- TypeScript optional fields (`Key?: string`) become `Option`.
- Async store calls (the AWS SDK `r2.send` invocations) are modelled by
  passing each call's outcome as an explicit `Except String Unit` argument
  (`.ok ()` = the call returned, `.error e` = the call threw with message `e`),
  and the list of store calls a function issues is returned as an explicit
  trace, in issue order.
- React `useState` state is threaded explicitly through `BrowserState`;
  an async handler is modelled as the state transformation it has performed
  by the time it completes (its continuation applied at response arrival).
- JavaScript `new Date(s).getTime()` is an external platform primitive and is
  modelled as an explicit function argument `getTime : String → Int`.
-/

set_option autoImplicit false

namespace R2Explorer

/-- JavaScript `String.prototype.split` with a single-character separator,
on character lists: `"".split(c) = [""]`, and each occurrence of the
separator opens a new (possibly empty) piece. -/
def splitChars (sep : Char) : List Char → List (List Char)
  | [] => [[]]
  | c :: cs =>
    let r := splitChars sep cs
    if c = sep then [] :: r
    else
      match r with
      | [] => [[c]]
      | h :: t => (c :: h) :: t

/-- JavaScript `key.split('/')` on strings. -/
def splitSlash (s : String) : List String :=
  (splitChars '/' s.toList).map (fun cs => String.mk cs)

/-- The `R2Object` interface of actions.ts: a listed object entry after the
server action has normalised the raw SDK fields. -/
structure R2Object where
  Key : String
  Size : Nat
  LastModified : String
deriving DecidableEq, Repr

/-- The `R2Folder` interface of actions.ts: a virtual folder derived from a
common prefix. -/
structure R2Folder where
  Prefix : String
  Name : String
deriving DecidableEq, Repr

/-- A raw element of `data.Contents` as returned by the SDK inside
`listFiles`: every field may be absent. -/
structure RawContent where
  Key : Option String
  Size : Option Nat
  LastModified : Option String
deriving DecidableEq, Repr

/-- The normalisation `listFiles` applies to a kept raw entry:
`Key: obj.Key || "Unknown"` (JS `||` treats the empty string as falsy),
`Size: obj.Size || 0`, `LastModified: obj.LastModified?.toISOString() || ""`. -/
def toR2Object (o : RawContent) : R2Object :=
  { Key :=
      match o.Key with
      | some k => if k = "" then "Unknown" else k
      | none => "Unknown"
    Size := o.Size.getD 0
    LastModified := o.LastModified.getD "" }

/-- The `files` projection inside `listFiles` (actions.ts lines 57-61):
`data.Contents?.filter(obj => obj.Key !== prefix).map(...)`. The only
filter applied is `obj.Key !== prefix`; there is no check that a key starts
with the queried prefix. -/
def projectFiles (pfx : String) (contents : List RawContent) : List R2Object :=
  (contents.filter (fun o => o.Key ≠ some pfx)).map toR2Object

/-- A store call issued by the `copyFile` server action, in issue order. -/
inductive StoreOp
  | copyOp (bucket sourceKey destinationKey : String)
  | deleteOp (bucket key : String)
deriving DecidableEq, Repr

/-- The result shape `{ success: boolean; error?: string }` returned by the
mutating server actions. -/
inductive ActionResult
  | ok
  | err (error : String)
deriving DecidableEq, Repr

/-- Whether an `Except`-modelled store call succeeded. -/
def callOk (r : Except String Unit) : Bool :=
  match r with
  | .ok _ => true
  | .error _ => false

/-- The `copyFile` server action (actions.ts lines 84-106). A single
`try`/`catch` wraps both `r2.send(CopyObjectCommand ...)` and, when `isMove`,
`r2.send(DeleteObjectCommand ...)`. `copyRes` and `deleteRes` are the
outcomes of those two sends; the second component is the trace of store
calls actually issued. Whichever send throws, the one `catch` returns
`{ success: false, error: error.message }`. -/
def copyFile (bucketName sourceKey destinationKey : String) (isMove : Bool)
    (copyRes deleteRes : Except String Unit) : ActionResult × List StoreOp :=
  match copyRes with
  | .error e => (.err e, [.copyOp bucketName sourceKey destinationKey])
  | .ok _ =>
    if isMove then
      match deleteRes with
      | .error e =>
          (.err e, [.copyOp bucketName sourceKey destinationKey, .deleteOp bucketName sourceKey])
      | .ok _ =>
          (.ok, [.copyOp bucketName sourceKey destinationKey, .deleteOp bucketName sourceKey])
    else (.ok, [.copyOp bucketName sourceKey destinationKey])

/-- The result shape of the `listFiles` server action:
`{ success: boolean; files?: R2Object[]; folders?: R2Folder[]; error?: string }`. -/
structure ListFilesResult where
  success : Bool
  files : Option (List R2Object)
  folders : Option (List R2Folder)
  error : Option String
deriving DecidableEq, Repr

/-- The `level` state of the page component: `'buckets' | 'files'`. -/
inductive Level
  | buckets
  | files
deriving DecidableEq, Repr

/-- The slice of the page component's `useState` state that the navigation
and listing handlers read and write. -/
structure BrowserState where
  level : Level
  files : List R2Object
  folders : List R2Folder
  currentBucket : Option String
  currentPrefix : String
  search : String
  loading : Bool
deriving DecidableEq, Repr

/-- The `loadFiles` handler of page.tsx (lines 128-143), as the state
transformation completed once the `listFiles` response `res` has arrived:
on `res.success` it stores `res.files || []`, `res.folders || []`, the
requested bucket and prefix, and `level = 'files'`; otherwise it only shows
an error toast. Both branches end with `setLoading(false)`. The result is
applied unconditionally at arrival: nothing ties it to the most recent
navigation. -/
def loadFiles (bucketName pfx : String) (res : ListFilesResult) (s : BrowserState) :
    BrowserState :=
  if res.success then
    { s with
      files := res.files.getD []
      folders := res.folders.getD []
      currentBucket := some bucketName
      currentPrefix := pfx
      level := .files
      loading := false }
  else
    { s with loading := false }

/-- The `handleOpenBucket` handler (page.tsx lines 145-147): it only calls
`loadFiles(bucketName, "")`; it does not touch `search`. -/
def handleOpenBucket (bucketName : String) (res : ListFilesResult) (s : BrowserState) :
    BrowserState :=
  loadFiles bucketName "" res s

/-- The `handleOpenFolder` handler (page.tsx lines 149-153): guarded on
`currentBucket`, it starts `loadFiles(currentBucket, prefix)` and clears the
search filter with `setSearch("")`. -/
def handleOpenFolder (pfx : String) (res : ListFilesResult) (s : BrowserState) :
    BrowserState :=
  match s.currentBucket with
  | none => s
  | some b => { loadFiles b pfx res s with search := "" }

/-- The `handleGoUp` handler (page.tsx lines 155-170): at the bucket root it
returns to the bucket list, clearing bucket, files and folders; otherwise it
drops the last `/`-delimited segment (`currentPrefix.split('/').filter(Boolean)`
then `pop`) and re-fetches the parent. Both paths end with `setSearch("")`. -/
def handleGoUp (res : ListFilesResult) (s : BrowserState) : BrowserState :=
  match s.currentBucket with
  | none => s
  | some b =>
    if s.currentPrefix = "" then
      { s with
        level := .buckets
        currentBucket := none
        files := []
        folders := []
        search := "" }
    else
      let parts := ((splitSlash s.currentPrefix).filter (fun p => p ≠ "")).dropLast
      let newPrefix := if parts.length > 0 then String.intercalate "/" parts ++ "/" else ""
      { loadFiles b newPrefix res s with search := "" }

/-- The `handleDelete` handler (page.tsx lines 177-196), after the user has
confirmed and with a bucket selected. It captures `oldFiles = [...files]`,
optimistically sets `files.filter(f => f.Key !== key)`, and issues the
delete; on failure it restores `oldFiles`. The result is the pair
(listing while the call is in flight, listing after the call resolved). -/
def handleDelete (files : List R2Object) (key : String)
    (deleteRes : Except String Unit) : List R2Object × List R2Object :=
  let optimistic := files.filter (fun f => f.Key ≠ key)
  match deleteRes with
  | .ok _ => (optimistic, optimistic)
  | .error _ => (optimistic, files)

/-- The clipboard action tag: `'copy' | 'move'`. -/
inductive ClipAction
  | copy
  | move
deriving DecidableEq, Repr

/-- The clipboard slot of page.tsx: `{ item: R2Object, action: 'copy' | 'move' }`. -/
structure ClipboardEntry where
  item : R2Object
  mode : ClipAction
deriving DecidableEq, Repr

/-- The file name `handleCopyMove` extracts: `source.Key.split('/').pop()`,
the segment after the last `/` (the whole key when it has no `/`). -/
def basename (key : String) : String :=
  (splitSlash key).getLastD ""

/-- The destination key `handleCopyMove` builds: `targetPrefix + fileName`. -/
def destinationKey (targetPrefix key : String) : String :=
  targetPrefix ++ basename key

/-- What a run of `handleCopyMove` reported to the user. -/
inductive TransferOutcome
  | noBucket
  | sameLocation
  | transferred (isMove : Bool)
  | transferFailed (error : String)
  | noFileData
deriving DecidableEq, Repr

/-- The observable effect of one `handleCopyMove` (or `handleFolderDrop`)
run: the toast-level outcome, the store calls issued, the clipboard slot
after completion, and whether the current listing was re-fetched. -/
structure TransferEffect where
  outcome : TransferOutcome
  ops : List StoreOp
  clipboard : Option ClipboardEntry
  refreshed : Bool
deriving DecidableEq, Repr

/-- The `handleCopyMove` handler (page.tsx lines 324-349). Guarded on
`currentBucket`; computes `destKey = targetPrefix + source.Key.split('/').pop()`;
if `source.Key === destKey` it reports the informational toast
"Source and destination are the same" and returns before any store call.
Otherwise it awaits `copyFile`; on success it refreshes the listing and
unconditionally runs `setClipboard(null)`; on failure the clipboard is left
as it was. `clip` is the clipboard slot when the handler runs. -/
def handleCopyMove (currentBucket : Option String) (clip : Option ClipboardEntry)
    (source : R2Object) (targetPrefix : String) (isMove : Bool)
    (copyRes deleteRes : Except String Unit) : TransferEffect :=
  match currentBucket with
  | none => ⟨.noBucket, [], clip, false⟩
  | some bucket =>
    let destKey := destinationKey targetPrefix source.Key
    if source.Key = destKey then ⟨.sameLocation, [], clip, false⟩
    else
      match copyFile bucket source.Key destKey isMove copyRes deleteRes with
      | (.ok, ops) => ⟨.transferred isMove, ops, none, true⟩
      | (.err e, ops) => ⟨.transferFailed e, ops, clip, false⟩

/-- The `handleFolderDrop` handler (page.tsx lines 364-383): when the drag
payload parses to a file it delegates to
`handleCopyMove(file, folderPrefix, true)` (drag-and-drop always moves);
otherwise nothing happens. -/
def handleFolderDrop (fileData : Option R2Object) (folderPrefix : String)
    (currentBucket : Option String) (clip : Option ClipboardEntry)
    (copyRes deleteRes : Except String Unit) : TransferEffect :=
  match fileData with
  | some file => handleCopyMove currentBucket clip file folderPrefix true copyRes deleteRes
  | none => ⟨.noFileData, [], clip, false⟩

/-- The sort field state: `'name' | 'size' | 'date'`. -/
inductive SortField
  | name
  | size
  | date
deriving DecidableEq, Repr

/-- The sort direction state: `'asc' | 'desc'`. -/
inductive SortDirection
  | asc
  | desc
deriving DecidableEq, Repr

/-- The pair of sort states `sortField`, `sortDirection` of page.tsx. -/
structure SortState where
  sortField : SortField
  sortDirection : SortDirection
deriving DecidableEq, Repr

/-- The `handleSort` handler (page.tsx lines 415-422): clicking the active
field flips the direction; clicking another field selects it with direction
ascending. -/
def handleSort (s : SortState) (field : SortField) : SortState :=
  if s.sortField = field then
    ⟨s.sortField, if s.sortDirection = .asc then .desc else .asc⟩
  else
    ⟨field, .asc⟩

/-- Three-way comparison used to mirror the JS comparator body
`if (valA < valB) return asc ? -1 : 1; if (valA > valB) return asc ? 1 : -1; return 0`. -/
def cmpInt {α : Type} [LinearOrder α] (asc : Bool) (a b : α) : Int :=
  if a < b then (if asc then -1 else 1)
  else if b < a then (if asc then 1 else -1)
  else 0

/-- The comparator inside `sortFiles` (page.tsx lines 424-444): compares by
`Key` for name, `Size` for size, and `new Date(LastModified).getTime()`
(modelled by `getTime`) for date, in the current direction. -/
def fileCompare (getTime : String → Int) (s : SortState) (a b : R2Object) : Int :=
  let asc := s.sortDirection = .asc
  match s.sortField with
  | .size => cmpInt asc a.Size b.Size
  | .date => cmpInt asc (getTime a.LastModified) (getTime b.LastModified)
  | .name => cmpInt asc a.Key b.Key

/-- The `sortFiles` function (page.tsx lines 424-444): a copy of the input
sorted with the comparator (`[...filesToSort].sort(cmp)`; JS `sort` places
`a` before `b` when the comparator is non-positive and is stable). -/
def sortFiles (getTime : String → Int) (s : SortState) (filesToSort : List R2Object) :
    List R2Object :=
  filesToSort.mergeSort (fun a b => decide (fileCompare getTime s a b ≤ 0))

/-! Concrete fixtures used by counterexamples and witnesses. -/

/-- A concrete object sitting in the `docs/` folder. -/
def fileTxt : R2Object := ⟨"docs/file.txt", 4, "2024-01-01T00:00:00.000Z"⟩

/-- A concrete object listed under the folder `x/`. -/
def entryX : R2Object := ⟨"x/a.txt", 1, "2024-01-01T00:00:00.000Z"⟩

/-- A concrete object listed under the folder `y/`. -/
def entryY : R2Object := ⟨"y/b.txt", 2, "2024-01-02T00:00:00.000Z"⟩

/-- The listing response for the folder `x/`. -/
def resX : ListFilesResult := ⟨true, some [entryX], some [], none⟩

/-- The listing response for the folder `y/`. -/
def resY : ListFilesResult := ⟨true, some [entryY], some [], none⟩

/-- A failing listing response. -/
def resFail : ListFilesResult := ⟨false, none, none, some "Network error"⟩

/-- A browser state inside bucket `bkt` at the root, before the racing
navigations of the superseded-fetch scenario. -/
def state0 : BrowserState := ⟨.files, [], [], some "bkt", "", "", false⟩

/-- State after the response of the later navigation (to `y/`) was applied. -/
def stateAfterY : BrowserState := loadFiles "bkt" "y/" resY state0

/-- State after the response of the earlier navigation (to `x/`) arrives late
and is applied on top of `stateAfterY`. -/
def stateAfterX : BrowserState := loadFiles "bkt" "x/" resX stateAfterY

/-- A raw listing entry whose key does not start with the queried prefix
`docs/`. -/
def strayRaw : RawContent := ⟨some "zzz", some 3, some "2024-01-03T00:00:00.000Z"⟩

/-! Claim theorems. -/

/-- C1 (counterexample). The claim says a listing response for `x/` arriving
after the response for the later navigation to `y/` has been applied is
discarded, the displayed prefix and files remaining `y/`'s. In `loadFiles`
there is no such guard: applying `x/`'s late response on top of `y/`'s state
overwrites prefix and files with `x/`'s. -/
theorem claim1_counterexample :
    stateAfterX.currentPrefix = "x/" ∧
    stateAfterX.files = [entryX] ∧
    ¬stateAfterX.currentPrefix = "y/" ∧
    ¬stateAfterX.files = stateAfterY.files := by
  decide

/-- C1 (amended). A successful `listFiles` response is applied by `loadFiles`
unconditionally when it arrives: whatever the current state (for example one
already showing the later navigation's listing), the displayed bucket,
prefix, files, folders and level become those of the response's own request.
The view tracks the most recently resolved fetch, not the most recently
requested location. -/
theorem claim1_late_response_overwrites (b p : String) (res : ListFilesResult)
    (s : BrowserState) (h : res.success = true) :
    (loadFiles b p res s).currentBucket = some b ∧
    (loadFiles b p res s).currentPrefix = p ∧
    (loadFiles b p res s).files = res.files.getD [] ∧
    (loadFiles b p res s).folders = res.folders.getD [] ∧
    (loadFiles b p res s).level = Level.files := by
  simp [loadFiles, h]

/-- C1 (witness). The amended theorem applied to the concrete race: the late
`x/` response overwrites the already-applied `y/` state. -/
theorem claim1_late_response_overwrites_witness :
    resX.success = true ∧
    (stateAfterX.currentBucket = some "bkt" ∧
     stateAfterX.currentPrefix = "x/" ∧
     stateAfterX.files = resX.files.getD [] ∧
     stateAfterX.folders = resX.folders.getD [] ∧
     stateAfterX.level = Level.files) :=
  ⟨rfl, claim1_late_response_overwrites "bkt" "x/" resX stateAfterY rfl⟩

/-- C2 (counterexample). The claim says a move whose Copy succeeds and whose
Delete fails reports a distinct PartialTransferFailure, distinguishable from
a plain copy failure. In `copyFile` one `catch` serves both sends, so the
result of (Copy ok, Delete throws "InternalError") is byte-for-byte the same
`{ success: false, error: "InternalError" }` as (Copy throws "InternalError"):
no caller can distinguish them. -/
theorem claim2_counterexample :
    (copyFile "bkt" "a/s.txt" "b/s.txt" true (Except.ok ()) (Except.error "InternalError")).1 =
      (copyFile "bkt" "a/s.txt" "b/s.txt" true (Except.error "InternalError") (Except.ok ())).1 ∧
    (copyFile "bkt" "a/s.txt" "b/s.txt" true (Except.ok ()) (Except.error "InternalError")).1 =
      ActionResult.err "InternalError" := by
  decide

/-- C2 (amended). When Copy succeeds and Delete fails during a move,
`copyFile` returns the generic failure `{ success: false, error }` carrying
the delete error message — never success, and the caller `handleCopyMove`
reports it as a failed transfer — but the result is identical to a plain
copy failure with the same message; no distinct PartialTransferFailure
variant exists. -/
theorem claim2_move_delete_failure_generic_error (bucket src dst e : String)
    (clip : Option ClipboardEntry) (source : R2Object) (targetPrefix : String)
    (deleteRes : Except String Unit) :
    (copyFile bucket src dst true (Except.ok ()) (Except.error e)).1 =
      ActionResult.err e ∧
    (copyFile bucket src dst true (Except.error e) deleteRes).1 =
      ActionResult.err e ∧
    (source.Key ≠ destinationKey targetPrefix source.Key →
      (handleCopyMove (some bucket) clip source targetPrefix true
          (Except.ok ()) (Except.error e)).outcome = TransferOutcome.transferFailed e) := by
  refine ⟨rfl, rfl, fun h => ?_⟩
  simp [handleCopyMove, copyFile, h]

/-- C2 (witness). The amended theorem at a concrete move of `docs/file.txt`
into `backup/` whose Delete throws. -/
theorem claim2_move_delete_failure_generic_error_witness :
    (copyFile "bkt" "docs/file.txt" "backup/file.txt" true
        (Except.ok ()) (Except.error "InternalError")).1 = ActionResult.err "InternalError" ∧
    (handleCopyMove (some "bkt") none fileTxt "backup/" true
        (Except.ok ()) (Except.error "InternalError")).outcome =
      TransferOutcome.transferFailed "InternalError" :=
  ⟨(claim2_move_delete_failure_generic_error "bkt" "docs/file.txt" "backup/file.txt"
      "InternalError" none fileTxt "backup/" (Except.ok ())).1,
   (claim2_move_delete_failure_generic_error "bkt" "docs/file.txt" "backup/file.txt"
      "InternalError" none fileTxt "backup/" (Except.ok ())).2.2 (by decide)⟩

/-- C3 (confirmed). In every `copyFile` run the trace of issued store calls
is either `[Copy]` or `[Copy, Delete source]`: Copy is issued first; the
Delete of the source key appears exactly when `isMove` and the Copy send
succeeded; and when Copy fails the trace is `[Copy]` alone, so Delete is
never attempted and the only issued call is the one that failed, mutating
nothing. -/
theorem claim3_copy_first_delete_gated (bucket src dst : String) (isMove : Bool)
    (copyRes deleteRes : Except String Unit) :
    ((copyFile bucket src dst isMove copyRes deleteRes).2 =
        [StoreOp.copyOp bucket src dst] ∨
     (copyFile bucket src dst isMove copyRes deleteRes).2 =
        [StoreOp.copyOp bucket src dst, StoreOp.deleteOp bucket src]) ∧
    ((StoreOp.deleteOp bucket src ∈ (copyFile bucket src dst isMove copyRes deleteRes).2) ↔
        (isMove = true ∧ callOk copyRes = true)) ∧
    (∀ e, copyRes = Except.error e →
        (copyFile bucket src dst isMove copyRes deleteRes).2 =
          [StoreOp.copyOp bucket src dst]) := by
  cases copyRes <;> cases isMove <;> cases deleteRes <;>
    simp [copyFile, callOk]

/-- C3 (witness). The theorem at a concrete failed Copy during a move: the
trace is the single Copy call, Delete untouched. -/
theorem claim3_copy_first_delete_gated_witness :
    (copyFile "bkt" "a/f.txt" "b/f.txt" true (Except.error "Boom") (Except.ok ())).2 =
      [StoreOp.copyOp "bkt" "a/f.txt" "b/f.txt"] :=
  (claim3_copy_first_delete_gated "bkt" "a/f.txt" "b/f.txt" true (Except.error "Boom")
      (Except.ok ())).2.2 "Boom" rfl

/-- C4 (counterexample). The claim says the files projection also excludes
entries whose key does not start with the queried prefix. The only filter in
`listFiles` is `obj.Key !== prefix`: for the queried prefix `docs/` an entry
with key `zzz` is returned even though `zzz` does not start with `docs/`,
so not every returned key extends the prefix. -/
theorem claim4_counterexample :
    projectFiles "docs/" [strayRaw] = [⟨"zzz", 3, "2024-01-03T00:00:00.000Z"⟩] ∧
    ("zzz".startsWith "docs/") = false := by
  decide

/-- C4 (amended). The files projection of `listFiles` excludes exactly the
entries whose raw key strictly equals the queried prefix; every other entry
is kept and normalised — including entries whose key does not start with the
prefix, for which no defensive check exists. -/
theorem claim4_filter_only_exact_prefix_key (pfx : String) (o : RawContent)
    (cs : List RawContent) :
    (o.Key = some pfx → projectFiles pfx (o :: cs) = projectFiles pfx cs) ∧
    (o.Key ≠ some pfx →
      projectFiles pfx (o :: cs) = toR2Object o :: projectFiles pfx cs) := by
  constructor <;> intro h <;> simp [projectFiles, List.filter_cons, h]

/-- C4 (witness). The amended theorem at concrete inputs: an entry whose key
equals the prefix `docs/` is dropped, while the stray entry `zzz` is kept. -/
theorem claim4_filter_only_exact_prefix_key_witness :
    projectFiles "docs/" [⟨some "docs/", some 0, none⟩] = [] ∧
    projectFiles "docs/" [strayRaw] = [toR2Object strayRaw] :=
  ⟨(claim4_filter_only_exact_prefix_key "docs/" ⟨some "docs/", some 0, none⟩ []).1 rfl,
   (claim4_filter_only_exact_prefix_key "docs/" strayRaw []).2 (by decide)⟩

/-- C5 (confirmed). `handleCopyMove` builds the destination key as
`targetPrefix + basename(source.Key)` where `basename` is the segment after
the last `/`; when that destination equals the source key the run reports
the informational "Source and destination are the same" toast, issues no
store call, and leaves the clipboard untouched; when it differs, the Copy
call it issues targets exactly that destination key. -/
theorem claim5_destination_and_noop (bucket : String) (clip : Option ClipboardEntry)
    (source : R2Object) (targetPrefix : String) (isMove : Bool)
    (copyRes deleteRes : Except String Unit) :
    destinationKey targetPrefix source.Key = targetPrefix ++ basename source.Key ∧
    (source.Key = destinationKey targetPrefix source.Key →
      handleCopyMove (some bucket) clip source targetPrefix isMove copyRes deleteRes =
        ⟨TransferOutcome.sameLocation, [], clip, false⟩) ∧
    (source.Key ≠ destinationKey targetPrefix source.Key →
      (handleCopyMove (some bucket) clip source targetPrefix isMove copyRes
          deleteRes).ops.head? =
        some (StoreOp.copyOp bucket source.Key (destinationKey targetPrefix source.Key))) := by
  refine ⟨rfl, fun h => ?_, fun h => ?_⟩
  · simp only [handleCopyMove]
    rw [if_pos h]
  · cases copyRes <;> cases isMove <;> cases deleteRes <;>
      simp [handleCopyMove, copyFile, h]

/-- C5 (witness). The theorem at the spec's own example
(`sourceKey = "docs/file.txt"`, `targetPrefix = "docs/"`): a no-op with no
store calls; and at `targetPrefix = "backup/"` the issued Copy targets
`backup/file.txt`. -/
theorem claim5_destination_and_noop_witness :
    handleCopyMove (some "bkt") none fileTxt "docs/" false (Except.ok ()) (Except.ok ()) =
      ⟨TransferOutcome.sameLocation, [], none, false⟩ ∧
    (handleCopyMove (some "bkt") none fileTxt "backup/" false (Except.ok ())
        (Except.ok ())).ops.head? =
      some (StoreOp.copyOp "bkt" "docs/file.txt" (destinationKey "backup/" "docs/file.txt")) :=
  ⟨(claim5_destination_and_noop "bkt" none fileTxt "docs/" false (Except.ok ())
      (Except.ok ())).2.1 (by decide),
   (claim5_destination_and_noop "bkt" none fileTxt "backup/" false (Except.ok ())
      (Except.ok ())).2.2 (by decide)⟩

/-- C6 (confirmed). In the confirmed-delete flow of `handleDelete`, the
in-flight listing (shown before the store call resolves) is the original
listing with the target entry filtered out, and when the Delete call fails
the listing after the run is exactly the captured pre-mutation list — the
very same list, entries and order. -/
theorem claim6_optimistic_delete_rollback (files : List R2Object) (key e : String) :
    (handleDelete files key (Except.error e)).1 =
      files.filter (fun f => f.Key ≠ key) ∧
    (handleDelete files key (Except.error e)).2 = files := by
  simp [handleDelete]

/-- C7 (confirmed). `handleSort` flips the direction when the clicked field
is the active one and selects the new field with direction ascending
otherwise; hence two clicks on the active field restore the sort state, and
`sortFiles` — a pure function of the sort state and the stored file list —
returns the same sorted sequence as before the two toggles. -/
theorem claim7_sort_toggle_roundtrip :
    (∀ (s : SortState) (f : SortField), s.sortField = f →
        handleSort s f =
          ⟨f, if s.sortDirection = SortDirection.asc then SortDirection.desc
              else SortDirection.asc⟩) ∧
    (∀ (s : SortState) (f : SortField), s.sortField ≠ f →
        handleSort s f = ⟨f, SortDirection.asc⟩) ∧
    (∀ (getTime : String → Int) (s : SortState) (f : SortField)
        (files : List R2Object), s.sortField = f →
        sortFiles getTime (handleSort (handleSort s f) f) files =
          sortFiles getTime s files) := by
  refine ⟨fun s f h => ?_, fun s f h => ?_, fun getTime s f files h => ?_⟩
  · simp [handleSort, h]
  · simp [handleSort, h]
  · have hs : handleSort (handleSort s f) f = s := by
      obtain ⟨sf, sd⟩ := s
      cases h
      cases sd <;> simp [handleSort]
    rw [hs]

/-- C7 (witness). The theorem at concrete inputs: a repeated click on the
active name column flips ascending to descending, a click on the size column
resets to ascending, and a double toggle leaves the sorted file list as it
was. -/
theorem claim7_sort_toggle_roundtrip_witness :
    handleSort ⟨SortField.name, SortDirection.asc⟩ SortField.name =
      ⟨SortField.name, SortDirection.desc⟩ ∧
    handleSort ⟨SortField.name, SortDirection.asc⟩ SortField.size =
      ⟨SortField.size, SortDirection.asc⟩ ∧
    sortFiles (fun _ => 0)
        (handleSort (handleSort ⟨SortField.name, SortDirection.asc⟩ SortField.name)
          SortField.name) [entryY, entryX] =
      sortFiles (fun _ => 0) ⟨SortField.name, SortDirection.asc⟩ [entryY, entryX] :=
  ⟨claim7_sort_toggle_roundtrip.1 ⟨SortField.name, SortDirection.asc⟩ SortField.name rfl,
   claim7_sort_toggle_roundtrip.2.1 ⟨SortField.name, SortDirection.asc⟩ SortField.size
     (by decide),
   claim7_sort_toggle_roundtrip.2.2 (fun _ => 0) ⟨SortField.name, SortDirection.asc⟩
     SortField.name [entryY, entryX] rfl⟩

/-- C8 (confirmed). When the `listFiles` response reports failure,
`loadFiles` leaves the current bucket, prefix, level, files and folders at
their prior values: a failed navigation keeps the user at the previously
displayed location. -/
theorem claim8_failed_fetch_preserves_state (b p : String) (res : ListFilesResult)
    (s : BrowserState) (h : res.success = false) :
    (loadFiles b p res s).currentBucket = s.currentBucket ∧
    (loadFiles b p res s).currentPrefix = s.currentPrefix ∧
    (loadFiles b p res s).level = s.level ∧
    (loadFiles b p res s).files = s.files ∧
    (loadFiles b p res s).folders = s.folders := by
  simp [loadFiles, h]

/-- C8 (witness). The theorem at a concrete failed fetch applied to the
state already showing the `y/` listing. -/
theorem claim8_failed_fetch_preserves_state_witness :
    resFail.success = false ∧
    ((loadFiles "bkt" "x/" resFail stateAfterY).currentBucket = stateAfterY.currentBucket ∧
     (loadFiles "bkt" "x/" resFail stateAfterY).currentPrefix = stateAfterY.currentPrefix ∧
     (loadFiles "bkt" "x/" resFail stateAfterY).level = stateAfterY.level ∧
     (loadFiles "bkt" "x/" resFail stateAfterY).files = stateAfterY.files ∧
     (loadFiles "bkt" "x/" resFail stateAfterY).folders = stateAfterY.folders) :=
  ⟨rfl, claim8_failed_fetch_preserves_state "bkt" "x/" resFail stateAfterY rfl⟩

/-- C9 (confirmed). On a successful transfer `handleCopyMove` runs
`setClipboard(null)` unconditionally: whatever the clipboard held — also
when a drag-and-drop moved an item that is not the clipboard's item — it is
cleared; and `handleFolderDrop` with a parsed drag payload is exactly
`handleCopyMove` of that file with move semantics, so the drag-and-drop path
inherits this. -/
theorem claim9_clipboard_cleared_on_success (bucket : String)
    (clip : Option ClipboardEntry) (file : R2Object) (targetPrefix : String)
    (isMove : Bool) (copyRes deleteRes : Except String Unit) :
    (file.Key ≠ destinationKey targetPrefix file.Key →
      (copyFile bucket file.Key (destinationKey targetPrefix file.Key) isMove copyRes
          deleteRes).1 = ActionResult.ok →
      (handleCopyMove (some bucket) clip file targetPrefix isMove copyRes
          deleteRes).clipboard = none) ∧
    handleFolderDrop (some file) targetPrefix (some bucket) clip copyRes deleteRes =
      handleCopyMove (some bucket) clip file targetPrefix true copyRes deleteRes := by
  refine ⟨fun h hok => ?_, rfl⟩
  cases copyRes <;> cases isMove <;> cases deleteRes <;>
    simp_all [handleCopyMove, copyFile]

/-- C9 (witness). The theorem at a drag-and-drop move of `x/a.txt` into
`moved/` while the clipboard holds the different item `y/b.txt`: after the
successful move the clipboard is empty. -/
theorem claim9_clipboard_cleared_on_success_witness :
    (handleCopyMove (some "bkt") (some ⟨entryY, ClipAction.copy⟩) entryX "moved/" true
        (Except.ok ()) (Except.ok ())).clipboard = none :=
  (claim9_clipboard_cleared_on_success "bkt" (some ⟨entryY, ClipAction.copy⟩) entryX
      "moved/" true (Except.ok ()) (Except.ok ())).1 (by decide) (by decide)

/-- C10 (confirmed). `handleOpenBucket` never touches the search filter, so
a filter typed at the bucket list carries into the opened bucket's root
listing; `handleOpenFolder` and `handleGoUp` (whenever a bucket is open)
both end by clearing the search filter to the empty string. -/
theorem claim10_search_filter_navigation (b p : String) (res : ListFilesResult)
    (s : BrowserState) :
    (handleOpenBucket b res s).search = s.search ∧
    (s.currentBucket.isSome = true → (handleOpenFolder p res s).search = "") ∧
    (s.currentBucket.isSome = true → (handleGoUp res s).search = "") := by
  refine ⟨?_, fun h => ?_, fun h => ?_⟩
  · by_cases hr : res.success <;> simp [handleOpenBucket, loadFiles, hr]
  · cases hcb : s.currentBucket with
    | none => rw [hcb] at h; simp at h
    | some b2 => simp [handleOpenFolder, hcb]
  · cases hcb : s.currentBucket with
    | none => rw [hcb] at h; simp at h
    | some b2 =>
      by_cases hp : s.currentPrefix = "" <;>
        [skip; by_cases hr : res.success] <;>
        simp [handleGoUp, hcb, hp, loadFiles]

/-- C10 (witness). The theorem at concrete states: opening a bucket from the
bucket list keeps the search text, while opening a folder and going up from
inside bucket `bkt` clear it. -/
theorem claim10_search_filter_navigation_witness :
    (handleOpenBucket "bkt" resX ⟨Level.buckets, [], [], none, "", "img", false⟩).search =
      "img" ∧
    (handleOpenFolder "x/" resX stateAfterY).search = "" ∧
    (handleGoUp resX stateAfterY).search = "" :=
  ⟨(claim10_search_filter_navigation "bkt" "x/" resX
      ⟨Level.buckets, [], [], none, "", "img", false⟩).1,
   (claim10_search_filter_navigation "bkt" "x/" resX stateAfterY).2.1 rfl,
   (claim10_search_filter_navigation "bkt" "x/" resX stateAfterY).2.2 rfl⟩

end R2Explorer
